import Mathlib

/-!
Verification of the `client-sqs-extended` library (src/src/index.ts).

The embedding models JavaScript strings as `List Char` (`Str`), message
attribute maps as association lists in insertion order, and the AWS SDK
calls as events in an effect trace.  Fallible code returns `Except JsError`.
All definitions are translated from src/src/index.ts; doc comments name the
source function each definition embeds.
-/

/-- JavaScript strings are modelled as lists of characters. -/
abbrev Str := List Char

/-- `Buffer.byteLength(s, 'utf8')`: the UTF-8 byte length of a string. -/
def utf8Len (s : Str) : Nat := (s.map Char.utf8Size).sum

/-- JavaScript truthiness of a `string | null | undefined` value:
`null`/`undefined` and the empty string are falsy. -/
def jsTruthy (o : Option Str) : Bool :=
  match o with
  | some s => !s.isEmpty
  | none => false

/-- Constant `S3_MESSAGE_KEY_MARKER` (index.ts line 33). -/
def S3_MESSAGE_KEY_MARKER : Str := ("-..s3Key..-".toList)

/-- Constant `S3_BUCKET_NAME_MARKER` (index.ts line 34). -/
def S3_BUCKET_NAME_MARKER : Str := ("-..s3BucketName..-".toList)

/-- Constant `S3_MESSAGE_BODY_KEY` (index.ts line 35), the reserved
attribute name `"S3MessageBodyKey"`. -/
def S3_MESSAGE_BODY_KEY : Str := ("S3MessageBodyKey".toList)

/-- An SQS `MessageAttributeValue`: a type tag and a string or binary value.
The binary value is modelled as a list of bytes. -/
structure MessageAttributeValue where
  DataType : Option Str
  StringValue : Option Str
  BinaryValue : Option (List Nat)
deriving DecidableEq, Repr

/-- The parts of an SQS `SendMessageRequest` the library reads and rewrites. -/
structure SendParams where
  MessageBody : Option Str
  MessageAttributes : Option (List (Str × MessageAttributeValue))
deriving DecidableEq, Repr

/-- Result shape of a send transform (`{ s3Content, messageBody }`). -/
structure SendObj where
  s3Content : Option Str
  messageBody : Option Str
deriving DecidableEq, Repr

/-- A received SQS `Message` (the fields the library touches). -/
structure Message where
  Body : Option Str
  ReceiptHandle : Option Str
  MessageAttributes : Option (List (Str × MessageAttributeValue))
deriving DecidableEq, Repr

/-- The parts of a `DeleteMessageRequest` the library reads and rewrites. -/
structure DeleteParams where
  ReceiptHandle : Str
deriving DecidableEq, Repr

/-- Errors the library can raise, plus errors of the external S3/SQS calls. -/
inductive JsError where
  /-- `throw new Error('bucketName option is required for sending messages')` -/
  | configError
  /-- Reading `.StringValue` of `undefined` in `_prepareSend` (line 123). -/
  | typeError
  /-- `throw new Error('Can not found match s3MessageKeyRegexMatch')` -/
  | parseError
  /-- A failure reported by an external S3 or SQS call. -/
  | s3Error (message : Str)
deriving DecidableEq, Repr

deriving instance DecidableEq for Except

/-- `messageAttributes[name]` lookup on an optional attribute map. -/
def lookupAttr (attrs : Option (List (Str × MessageAttributeValue))) (name : Str) :
    Option MessageAttributeValue :=
  match attrs with
  | none => none
  | some l => (l.find? (fun p => p.1 = name)).map (fun p => p.2)

/-- `message.MessageAttributes?.[S3_MESSAGE_BODY_KEY]?.StringValue`. -/
def getAttrStringValue (attrs : Option (List (Str × MessageAttributeValue))) (name : Str) :
    Option Str :=
  match lookupAttr attrs name with
  | some a => a.StringValue
  | none => none

/-- `getMessageAttributesSize` (index.ts lines 246-269): sum over attributes of
UTF-8 lengths of name, type tag, string value and binary value.  The source
guards `attr.DataType` by truthiness, which only differs from presence for the
empty string, whose length is 0 either way. -/
def getMessageAttributesSize (messageAttributes : List (Str × MessageAttributeValue)) : Nat :=
  messageAttributes.foldl
    (fun size p =>
      size + utf8Len p.1
        + (match p.2.DataType with | some d => utf8Len d | none => 0)
        + (match p.2.StringValue with | some v => utf8Len v | none => 0)
        + (match p.2.BinaryValue with | some v => v.length | none => 0))
    0

/-- The estimated wire size used by `isLarge`: attribute size plus UTF-8
body length (absent fields contribute 0). -/
def msgSize (message : SendParams) : Nat :=
  (match message.MessageAttributes with
   | some a => getMessageAttributesSize a
   | none => 0)
  + (match message.MessageBody with
     | some b => utf8Len b
     | none => 0)

/-- `isLarge` (index.ts lines 271-275): strictly greater than the threshold. -/
def isLarge (message : SendParams) (messageSizeThreshold : Nat) : Bool :=
  decide (messageSizeThreshold < msgSize message)

/-- `defaultSendTransform` (index.ts lines 277-286). -/
def defaultSendTransform (alwaysUseS3 : Bool) (messageSizeThreshold : Nat)
    (message : SendParams) : SendObj :=
  let useS3 := alwaysUseS3 || isLarge message messageSizeThreshold
  { messageBody := if useS3 then none else message.MessageBody,
    s3Content := if useS3 then message.MessageBody else none }

/-- `defaultReceiveTransform` (index.ts lines 288-292): `s3Content || message.Body`. -/
def defaultReceiveTransform (message : Message) (s3Content : Option Str) : Option Str :=
  if jsTruthy s3Content then s3Content else message.Body

/-- `addS3MessageKeyAttribute` (index.ts lines 317-330): spread the existing
attributes and bind the reserved name to a String attribute holding the token.
(The computed-key overwrite is modelled as remove-then-append; only lookups
observe the result.) -/
def addS3MessageKeyAttribute (s3MessageKey : Str)
    (attributes : List (Str × MessageAttributeValue)) :
    List (Str × MessageAttributeValue) :=
  (attributes.filter (fun p => p.1 ≠ S3_MESSAGE_BODY_KEY))
    ++ [(S3_MESSAGE_BODY_KEY,
         { DataType := some ("String".toList), StringValue := some s3MessageKey,
           BinaryValue := none })]

/-- All positions at which `pat` occurs in `s`, in increasing order.
`String.prototype.indexOf`/`lastIndexOf` are its head and last element. -/
def occList (pat s : Str) : List Nat :=
  (List.range (s.length + 1)).filter (fun p => pat.isPrefixOf (s.drop p))

/-- `s.indexOf(pat)`: the first occurrence, `none` when the JS call returns -1. -/
def jsIndexOf (s pat : Str) : Option Nat := (occList pat s).head?

/-- `s.lastIndexOf(pat)`: the last occurrence, `none` when the JS call returns -1. -/
def jsLastIndexOf (s pat : Str) : Option Nat := (occList pat s).getLast?

/-- `s.substring(a, b)`: JavaScript swaps the endpoints when `a > b` and clamps
to the string length. -/
def jsSubstring (s : Str) (a b : Nat) : Str :=
  ((s.drop (min a b)).take (max a b - min a b))

/-- `embedS3MarkersInReceiptHandle` (index.ts lines 313-315). -/
def embedS3MarkersInReceiptHandle (bucketName s3MessageKey receiptHandle : Str) : Str :=
  S3_BUCKET_NAME_MARKER ++ bucketName ++ S3_BUCKET_NAME_MARKER
    ++ S3_MESSAGE_KEY_MARKER ++ s3MessageKey ++ S3_MESSAGE_KEY_MARKER ++ receiptHandle

/-- `extractBucketNameFromReceiptHandle` (index.ts lines 332-341):
`substring(indexOf(marker) + marker.length, lastIndexOf(marker))` when the
bucket marker occurs, else `null`. -/
def extractBucketNameFromReceiptHandle (receiptHandle : Str) : Option Str :=
  match jsIndexOf receiptHandle S3_BUCKET_NAME_MARKER,
        jsLastIndexOf receiptHandle S3_BUCKET_NAME_MARKER with
  | some i, some j =>
      some (jsSubstring receiptHandle (i + S3_BUCKET_NAME_MARKER.length) j)
  | _, _ => none

/-- `extractS3MessageKeyFromReceiptHandle` (index.ts lines 343-352). -/
def extractS3MessageKeyFromReceiptHandle (receiptHandle : Str) : Option Str :=
  match jsIndexOf receiptHandle S3_MESSAGE_KEY_MARKER,
        jsLastIndexOf receiptHandle S3_MESSAGE_KEY_MARKER with
  | some i, some j =>
      some (jsSubstring receiptHandle (i + S3_MESSAGE_KEY_MARKER.length) j)
  | _, _ => none

/-- `getOriginReceiptHandle` (index.ts lines 354-358): everything after the
last key marker when one occurs, else the handle unchanged. -/
def getOriginReceiptHandle (receiptHandle : Str) : Str :=
  match jsLastIndexOf receiptHandle S3_MESSAGE_KEY_MARKER with
  | some j => receiptHandle.drop (j + S3_MESSAGE_KEY_MARKER.length)
  | none => receiptHandle

/-- `getS3MessageKeyAndBucket` (index.ts lines 294-311).  A falsy token
(absent or empty) yields the not-offloaded sentinel; otherwise the token is
matched against `^\((.*)\)(.*)?`: it must start with `(` and contain a later
`)`; the greedy first group runs to the last `)`. -/
def getS3MessageKeyAndBucket (s3MessageKey : Option Str) :
    Except JsError (Option Str × Option Str) :=
  match s3MessageKey with
  | none => .ok (none, none)
  | some s =>
    if s.isEmpty then .ok (none, none)
    else
      match s with
      | '(' :: rest =>
        match (occList ([')']) rest).getLast? with
        | some j => .ok (some (rest.take j), some (rest.drop (j + 1)))
        | none => .error JsError.parseError
      | _ => .error JsError.parseError

/-- Whether a token matches the regex `^\((.*)\)(.*)?` of
`getS3MessageKeyAndBucket`: starts with `(` and a `)` follows. -/
def matchesKeyPattern (s : Str) : Bool :=
  match s with
  | '(' :: rest => !(occList ([')']) rest).isEmpty
  | _ => false

/-- An initiated call to an external AWS client, recorded in program order of
initiation.  An AWS SDK v3 client method such as `this.sqs.sendMessage(p)`
returns a promise whose underlying request starts when the method is called. -/
inductive Event where
  | sqsSend (params : SendParams)
  | s3Put (bucket key content : Str)
  | sqsDelete (receiptHandle : Str)
  | s3Delete (bucket key : Str)
deriving DecidableEq, Repr

/-- Result of `SQSExtended._prepareSend`. -/
structure PrepareSendResult where
  s3MessageKey : Option Str
  sendParams : SendParams
  s3Content : Option Str
deriving DecidableEq, Repr

/-- `SQSExtended._prepareSend` (index.ts lines 114-138).  `sendTransform` is the
configured transform (the default unless overridden).  When the transform's
`s3Content` is falsy or the reserved attribute already exists, the outgoing
body is `sendObj.messageBody || existingS3MessageKey.StringValue`; reading
`.StringValue` of an absent attribute is a TypeError.  Otherwise a fresh key
is minted, the reserved attribute is set to `(bucketName)key`, and the body is
`sendObj.messageBody || s3MessageKey`. -/
def prepareSend (sendTransform : SendParams → SendObj) (bucketName : Str) (fresh : Str)
    (params : SendParams) : Except JsError PrepareSendResult :=
  let sendObj := sendTransform params
  let existingS3MessageKey := lookupAttr params.MessageAttributes S3_MESSAGE_BODY_KEY
  if !jsTruthy sendObj.s3Content || existingS3MessageKey.isSome then
    match jsTruthy sendObj.messageBody, existingS3MessageKey with
    | true, _ =>
        .ok { s3MessageKey := none,
              sendParams := { params with MessageBody := sendObj.messageBody },
              s3Content := sendObj.s3Content }
    | false, some attr =>
        .ok { s3MessageKey := none,
              sendParams := { params with MessageBody := attr.StringValue },
              s3Content := sendObj.s3Content }
    | false, none => .error JsError.typeError
  else
    .ok { s3MessageKey := some fresh,
          sendParams :=
            { params with
              MessageBody := if jsTruthy sendObj.messageBody then sendObj.messageBody
                             else some fresh,
              MessageAttributes :=
                some (addS3MessageKeyAttribute
                  (('(' :: bucketName) ++ (')' :: fresh))
                  (params.MessageAttributes.getD [])) },
          s3Content := sendObj.s3Content }

/-- The caller-visible outcome of `invokeFnBeforeRequest` (index.ts lines
376-409) without a callback: an upload failure rejects the returned promise
with the upload's error, otherwise the queue result is surfaced. -/
def uploadThen (uploadResult : Except JsError Unit) (queueResult : Except JsError Nat) :
    Except JsError Nat :=
  match uploadResult with
  | .error e => .error e
  | .ok _ => queueResult

/-- `SQSExtended.sendMessage` (index.ts lines 140-158), called without a
callback, as the repository's own tests do.  Returns the trace of external
calls in initiation order and the caller-visible outcome.  On the offload path
line 151 evaluates `this.sqs.sendMessage(sendParams)` first, so the queue
request is initiated before `.promise()` triggers the upload; the returned
promise then rejects with the upload's error before consulting the queue
result (`invokeFnBeforeRequest`, lines 376-409).  `uploadResult` and
`queueResult` stand for the outcomes of the external S3 put and SQS send. -/
def sendMessageModel (sendTransform : SendParams → SendObj) (bucketName : Str)
    (fresh : Str) (uploadResult : Except JsError Unit) (queueResult : Except JsError Nat)
    (params : SendParams) : List Event × Except JsError Nat :=
  if bucketName.isEmpty then ([], .error JsError.configError)
  else
    match prepareSend sendTransform bucketName fresh params with
    | .error e => ([], .error e)
    | .ok r =>
      match r.s3MessageKey with
      | none => ([Event.sqsSend r.sendParams], queueResult)
      | some k =>
          ([Event.sqsSend r.sendParams, Event.s3Put bucketName k (r.s3Content.getD [])],
           uploadThen uploadResult queueResult)

/-- `SQSExtended.sendMessage` of the second source version (unnamed/part_001,
lines 169-184): the upload is awaited to completion before
`this.sqs.sendMessage` is called, and an upload failure prevents the queue
send from being initiated at all. -/
def sendMessagePart001 (alwaysUseS3 : Bool) (messageSizeThreshold : Nat) (bucketName : Str)
    (fresh : Str) (uploadResult : Except JsError Unit) (queueResult : Except JsError Nat)
    (params : SendParams) : List Event × Except JsError Nat :=
  if bucketName.isEmpty then ([], .error JsError.configError)
  else
    match prepareSend (defaultSendTransform alwaysUseS3 messageSizeThreshold)
        bucketName fresh params with
    | .error e => ([], .error e)
    | .ok r =>
      match r.s3MessageKey, jsTruthy r.s3Content with
      | some k, true =>
          (match uploadResult with
           | .error e => ([Event.s3Put bucketName k (r.s3Content.getD [])], .error e)
           | .ok _ =>
               ([Event.s3Put bucketName k (r.s3Content.getD []),
                 Event.sqsSend r.sendParams], queueResult))
      | _, _ => ([Event.sqsSend r.sendParams], queueResult)

/-- One message of `SQSExtended._processReceive` (index.ts lines 160-179):
decode the reserved attribute, and when a key is present fetch the content,
rewrite the body through the receive transform and wrap the receipt handle.
`fetch` stands for `_getS3Content`.  A missing receipt handle is interpolated
as the literal string `"undefined"` by the template in
`embedS3MarkersInReceiptHandle`.  When decoding succeeds with a key, the
bucket group is always present; `getD` only discharges the option. -/
def processMessage (receiveTransform : Message → Option Str → Option Str)
    (fetch : Str → Str → Except JsError Str) (message : Message) :
    Except JsError Message :=
  match getS3MessageKeyAndBucket
      (getAttrStringValue message.MessageAttributes S3_MESSAGE_BODY_KEY) with
  | .error e => .error e
  | .ok (bucketName, s3MessageKey) =>
    if jsTruthy s3MessageKey then
      match fetch (bucketName.getD []) (s3MessageKey.getD []) with
      | .error e => .error e
      | .ok content =>
          .ok { message with
                Body := receiveTransform message (some content),
                ReceiptHandle :=
                  some (embedS3MarkersInReceiptHandle (bucketName.getD [])
                    (s3MessageKey.getD [])
                    (message.ReceiptHandle.getD ("undefined".toList))) }
    else
      .ok { message with Body := receiveTransform message none }

/-- `Promise.all` over `_processReceive`'s per-message work, as observed by the
caller of `receiveMessage`: the batch result is the list of processed messages
when every fetch succeeds, and the whole call rejects with a failure otherwise
(modelled as the leftmost rejection). -/
def processReceive (receiveTransform : Message → Option Str → Option Str)
    (fetch : Str → Str → Except JsError Str) : List Message → Except JsError (List Message)
  | [] => .ok []
  | m :: rest =>
    match processMessage receiveTransform fetch m with
    | .error e => .error e
    | .ok m2 =>
      match processReceive receiveTransform fetch rest with
      | .error e => .error e
      | .ok l => .ok (m2 :: l)

/-- A record of a Lambda `SQSEvent` (the fields `checkEvent` touches). -/
structure SQSRecord where
  body : Str
  messageAttributes : Option (List (Str × MessageAttributeValue))
deriving DecidableEq, Repr

/-- One record of `SQSExtended.checkEvent` (index.ts lines 218-230): when the
reserved attribute decodes to a key, fetch the content and replace the body
(`record.body = s3Content || record.body` falls back to the raw body for an
empty fetched string). -/
def checkEventRecord (fetch : Str → Str → Except JsError Str) (record : SQSRecord) :
    Except JsError SQSRecord :=
  match getS3MessageKeyAndBucket
      (getAttrStringValue record.messageAttributes S3_MESSAGE_BODY_KEY) with
  | .error e => .error e
  | .ok (bucketName, s3MessageKey) =>
    if jsTruthy s3MessageKey then
      match fetch (bucketName.getD []) (s3MessageKey.getD []) with
      | .error e => .error e
      | .ok content =>
          .ok { record with
                body := if content.isEmpty then record.body else content }
    else .ok record

/-- `Promise.all` over `checkEvent`'s per-record work, as observed by the
caller: all records or the leftmost rejection. -/
def checkEvent (fetch : Str → Str → Except JsError Str) :
    List SQSRecord → Except JsError (List SQSRecord)
  | [] => .ok []
  | r :: rest =>
    match checkEventRecord fetch r with
    | .error e => .error e
    | .ok r2 =>
      match checkEvent fetch rest with
      | .error e => .error e
      | .ok l => .ok (r2 :: l)

/-- Result of `SQSExtended._prepareDelete` (index.ts lines 191-200). -/
structure PrepareDeleteResult where
  bucketName : Option Str
  s3MessageKey : Option Str
  deleteParams : DeleteParams
deriving DecidableEq, Repr

/-- `SQSExtended._prepareDelete` (index.ts lines 191-200). -/
def prepareDelete (params : DeleteParams) : PrepareDeleteResult :=
  { bucketName := extractBucketNameFromReceiptHandle params.ReceiptHandle,
    s3MessageKey := extractS3MessageKeyFromReceiptHandle params.ReceiptHandle,
    deleteParams := { params with ReceiptHandle := getOriginReceiptHandle params.ReceiptHandle } }

/-- `SQSExtended._deleteS3Content` (index.ts lines 102-112): a falsy bucket
name returns `null` without touching S3. -/
def deleteS3ContentEffects (bucketName : Option Str) (key : Str) : List Event :=
  if jsTruthy bucketName then [Event.s3Delete (bucketName.getD []) key] else []

/-- `SQSExtended.deleteMessage` (index.ts lines 202-216), as the trace of
external calls it initiates.  `this.sqs.deleteMessage(deleteParams)` starts the
queue delete when evaluated, on both paths.  On the marker path the method
returns `wrapRequest(...)` WITHOUT invoking `.promise()`, so the S3 delete
inside `invokeFnBeforeRequest` runs once per invocation of the wrapper's
`promise`/`send` function: once immediately when a callback is supplied
(`wrapRequest` line 366), and once more if the caller invokes the returned
`promise()`/`send`. -/
def deleteMessageEffects (params : DeleteParams) (callbackGiven promiseInvoked : Bool) :
    List Event :=
  let pd := prepareDelete params
  if jsTruthy pd.s3MessageKey then
    [Event.sqsDelete pd.deleteParams.ReceiptHandle]
      ++ (if callbackGiven then deleteS3ContentEffects pd.bucketName (pd.s3MessageKey.getD [])
          else [])
      ++ (if promiseInvoked then deleteS3ContentEffects pd.bucketName (pd.s3MessageKey.getD [])
          else [])
  else
    [Event.sqsDelete pd.deleteParams.ReceiptHandle]

/- Helper lemmas about the list-based string primitives. -/

/-- Dropping the length of a leading appended block uncovers the tail. -/
lemma drop_len_append (l₁ l₂ : Str) (n : Nat) (h : n = l₁.length) :
    (l₁ ++ l₂).drop n = l₂ := by
  subst h
  induction l₁ with
  | nil => simp
  | cons a tl ih => simp [ih]

/-- Taking the length of a leading appended block yields that block. -/
lemma take_len_append (l₁ l₂ : Str) (n : Nat) (h : n = l₁.length) :
    (l₁ ++ l₂).take n = l₁ := by
  subst h
  induction l₁ with
  | nil => simp
  | cons a tl ih => simp [ih]

/-- `jsSubstring` with ordered endpoints is drop-then-take. -/
lemma jsSubstring_of_le (s : Str) (a b : Nat) (hab : a ≤ b) :
    jsSubstring s a b = (s.drop a).take (b - a) := by
  unfold jsSubstring
  rw [Nat.min_eq_left hab, Nat.max_eq_right hab]

/-- When the bucket marker occurs in the wrapped handle exactly at the two
positions written by `embedS3MarkersInReceiptHandle`, bucket extraction
recovers the wrapped bucket name. -/
lemma extractBucket_embed (b k h : Str)
    (hBM : occList S3_BUCKET_NAME_MARKER (embedS3MarkersInReceiptHandle b k h)
      = [0, 18 + b.length]) :
    extractBucketNameFromReceiptHandle (embedS3MarkersInReceiptHandle b k h) = some b := by
  unfold extractBucketNameFromReceiptHandle jsIndexOf jsLastIndexOf
  rw [hBM]
  have hlen : S3_BUCKET_NAME_MARKER.length = 18 := by decide
  simp only [List.head?, List.getLast?_cons_cons, List.getLast?_singleton, hlen]
  have h18 : (0 : Nat) + 18 = 18 := by omega
  rw [h18, jsSubstring_of_le _ _ _ (by omega)]
  have hsub : 18 + b.length - 18 = b.length := by omega
  rw [hsub]
  have hw : embedS3MarkersInReceiptHandle b k h
      = S3_BUCKET_NAME_MARKER
        ++ (b ++ (S3_BUCKET_NAME_MARKER ++ (S3_MESSAGE_KEY_MARKER
            ++ (k ++ (S3_MESSAGE_KEY_MARKER ++ h))))) := by
    unfold embedS3MarkersInReceiptHandle
    simp [List.append_assoc]
  rw [hw]
  rw [drop_len_append S3_BUCKET_NAME_MARKER _ 18 (by decide)]
  rw [take_len_append b _ b.length rfl]

/-- When the key marker occurs in the wrapped handle exactly at the two
positions written by `embedS3MarkersInReceiptHandle`, key extraction recovers
the wrapped key. -/
lemma extractKey_embed (b k h : Str)
    (hKM : occList S3_MESSAGE_KEY_MARKER (embedS3MarkersInReceiptHandle b k h)
      = [36 + b.length, 47 + b.length + k.length]) :
    extractS3MessageKeyFromReceiptHandle (embedS3MarkersInReceiptHandle b k h) = some k := by
  unfold extractS3MessageKeyFromReceiptHandle jsIndexOf jsLastIndexOf
  rw [hKM]
  have hlen : S3_MESSAGE_KEY_MARKER.length = 11 := by decide
  simp only [List.head?, List.getLast?_cons_cons, List.getLast?_singleton, hlen]
  have h47 : 36 + b.length + 11 = 47 + b.length := by omega
  rw [h47, jsSubstring_of_le _ _ _ (by omega)]
  have hsub : 47 + b.length + k.length - (47 + b.length) = k.length := by omega
  rw [hsub]
  have hw : embedS3MarkersInReceiptHandle b k h
      = (S3_BUCKET_NAME_MARKER ++ b ++ S3_BUCKET_NAME_MARKER ++ S3_MESSAGE_KEY_MARKER)
        ++ (k ++ (S3_MESSAGE_KEY_MARKER ++ h)) := by
    unfold embedS3MarkersInReceiptHandle
    simp [List.append_assoc]
  rw [hw]
  rw [drop_len_append _ _ (47 + b.length)
    (by
      have h1 : S3_BUCKET_NAME_MARKER.length = 18 := by decide
      have h2 : S3_MESSAGE_KEY_MARKER.length = 11 := by decide
      simp [List.length_append, h1, h2]
      omega)]
  rw [take_len_append k _ k.length rfl]

/-- When the key marker occurs in the wrapped handle exactly at the two
positions written by `embedS3MarkersInReceiptHandle`, the original receipt
handle is recovered. -/
lemma origin_embed (b k h : Str)
    (hKM : occList S3_MESSAGE_KEY_MARKER (embedS3MarkersInReceiptHandle b k h)
      = [36 + b.length, 47 + b.length + k.length]) :
    getOriginReceiptHandle (embedS3MarkersInReceiptHandle b k h) = h := by
  unfold getOriginReceiptHandle jsLastIndexOf
  rw [hKM]
  have hlen : S3_MESSAGE_KEY_MARKER.length = 11 := by decide
  simp only [List.getLast?_cons_cons, List.getLast?_singleton, hlen]
  have hw : embedS3MarkersInReceiptHandle b k h
      = (S3_BUCKET_NAME_MARKER ++ b ++ S3_BUCKET_NAME_MARKER ++ S3_MESSAGE_KEY_MARKER
          ++ k ++ S3_MESSAGE_KEY_MARKER) ++ h := by
    unfold embedS3MarkersInReceiptHandle
    simp [List.append_assoc]
  rw [hw]
  rw [drop_len_append _ _ (47 + b.length + k.length + 11)
    (by
      have h1 : S3_BUCKET_NAME_MARKER.length = 18 := by decide
      have h2 : S3_MESSAGE_KEY_MARKER.length = 11 := by decide
      simp [List.length_append, h1, h2]
      omega)]

/-- Looking up the reserved name after `addS3MessageKeyAttribute` yields the
String attribute holding the token. -/
lemma lookupAttr_add (tok : Str) (l : List (Str × MessageAttributeValue)) :
    lookupAttr (some (addS3MessageKeyAttribute tok l)) S3_MESSAGE_BODY_KEY
      = some { DataType := some ("String".toList), StringValue := some tok,
               BinaryValue := none } := by
  have h1 : lookupAttr (some (addS3MessageKeyAttribute tok l)) S3_MESSAGE_BODY_KEY
      = ((addS3MessageKeyAttribute tok l).find? (fun p => p.1 = S3_MESSAGE_BODY_KEY)).map
          (fun p => p.2) := rfl
  rw [h1]
  unfold addS3MessageKeyAttribute
  rw [List.find?_append]
  have hn : (l.filter (fun p => p.1 ≠ S3_MESSAGE_BODY_KEY)).find?
      (fun p => p.1 = S3_MESSAGE_BODY_KEY) = none := by
    rw [List.find?_eq_none]
    intro x hx
    have hmem := List.mem_filter.mp hx
    simpa using of_decide_eq_true hmem.2
  rw [hn]
  simp

/- Reduction lemmas for `prepareSend` and `sendMessageModel`. -/

/-- `_prepareSend` when the transform declines to offload and leaves a truthy
residual body: body rewritten to the transform's body, no key minted. -/
lemma prepareSend_noOffload (st : SendParams → SendObj) (bucketName fresh : Str)
    (params : SendParams)
    (hs3 : jsTruthy (st params).s3Content = false)
    (hmb : jsTruthy (st params).messageBody = true) :
    prepareSend st bucketName fresh params
      = .ok { s3MessageKey := none,
              sendParams := { params with MessageBody := (st params).messageBody },
              s3Content := (st params).s3Content } := by
  simp [prepareSend, hs3, hmb]

/-- `_prepareSend` when the reserved attribute is already present: no key is
minted and the body falls back to the attribute's string value only when the
transform's body is falsy. -/
lemma prepareSend_existing (st : SendParams → SendObj) (bucketName fresh : Str)
    (params : SendParams) (attr : MessageAttributeValue)
    (hattr : lookupAttr params.MessageAttributes S3_MESSAGE_BODY_KEY = some attr) :
    prepareSend st bucketName fresh params
      = .ok { s3MessageKey := none,
              sendParams := { params with MessageBody :=
                (if jsTruthy (st params).messageBody then (st params).messageBody
                 else attr.StringValue) },
              s3Content := (st params).s3Content } := by
  cases hmb : jsTruthy (st params).messageBody <;>
    simp [prepareSend, hattr, hmb]

/-- `_prepareSend` on the offload path: fresh key minted, reserved attribute
attached, body is the transform's body or else the key. -/
lemma prepareSend_offload (st : SendParams → SendObj) (bucketName fresh : Str)
    (params : SendParams)
    (hs3 : jsTruthy (st params).s3Content = true)
    (hattr : lookupAttr params.MessageAttributes S3_MESSAGE_BODY_KEY = none) :
    prepareSend st bucketName fresh params
      = .ok { s3MessageKey := some fresh,
              sendParams := { params with
                MessageBody := if jsTruthy (st params).messageBody then (st params).messageBody
                               else some fresh,
                MessageAttributes := some (addS3MessageKeyAttribute
                  (('(' :: bucketName) ++ (')' :: fresh))
                  (params.MessageAttributes.getD [])) },
              s3Content := (st params).s3Content } := by
  simp [prepareSend, hs3, hattr]

/-- `_prepareSend` dereferences `.StringValue` of the absent reserved
attribute when the transform's content and body are both falsy. -/
lemma prepareSend_typeError (st : SendParams → SendObj) (bucketName fresh : Str)
    (params : SendParams)
    (hs3 : jsTruthy (st params).s3Content = false)
    (hmb : jsTruthy (st params).messageBody = false)
    (hattr : lookupAttr params.MessageAttributes S3_MESSAGE_BODY_KEY = none) :
    prepareSend st bucketName fresh params = .error JsError.typeError := by
  simp [prepareSend, hs3, hmb, hattr]

/-- The default send transform below or at the threshold with
`alwaysUseS3 = false` keeps the body and produces no content. -/
lemma defaultSendTransform_small (t : Nat) (params : SendParams)
    (hsize : msgSize params ≤ t) :
    defaultSendTransform false t params
      = { s3Content := none, messageBody := params.MessageBody } := by
  have hL : isLarge params t = false := by
    unfold isLarge
    exact decide_eq_false (Nat.not_lt.mpr hsize)
  simp [defaultSendTransform, hL]

/-- The default send transform above the threshold, or with
`alwaysUseS3 = true`, moves the body into the content. -/
lemma defaultSendTransform_large (alwaysUseS3 : Bool) (t : Nat) (params : SendParams)
    (h : alwaysUseS3 = true ∨ t < msgSize params) :
    defaultSendTransform alwaysUseS3 t params
      = { s3Content := params.MessageBody, messageBody := none } := by
  rcases h with h | h
  · subst h
    simp [defaultSendTransform]
  · have hL : isLarge params t = true := by
      unfold isLarge
      exact decide_eq_true h
    simp [defaultSendTransform, hL]

/-- `sendMessage` reduction when no key was minted: the single queue send. -/
lemma sendMessageModel_ok_none (st : SendParams → SendObj) (bucketName fresh : Str)
    (u : Except JsError Unit) (q : Except JsError Nat) (params : SendParams)
    (r : PrepareSendResult)
    (hb : bucketName.isEmpty = false)
    (hps : prepareSend st bucketName fresh params = .ok r)
    (hkey : r.s3MessageKey = none) :
    sendMessageModel st bucketName fresh u q params = ([Event.sqsSend r.sendParams], q) := by
  simp [sendMessageModel, hb, hps, hkey]

/-- `sendMessage` reduction on the offload path: the queue send is initiated
first, then the upload; the outcome is upload-then-queue. -/
lemma sendMessageModel_ok_some (st : SendParams → SendObj) (bucketName fresh : Str)
    (u : Except JsError Unit) (q : Except JsError Nat) (params : SendParams)
    (r : PrepareSendResult) (k : Str)
    (hb : bucketName.isEmpty = false)
    (hps : prepareSend st bucketName fresh params = .ok r)
    (hkey : r.s3MessageKey = some k) :
    sendMessageModel st bucketName fresh u q params
      = ([Event.sqsSend r.sendParams, Event.s3Put bucketName k (r.s3Content.getD [])],
         uploadThen u q) := by
  simp [sendMessageModel, hb, hps, hkey]

/-- `sendMessage` reduction when `_prepareSend` throws. -/
lemma sendMessageModel_error (st : SendParams → SendObj) (bucketName fresh : Str)
    (u : Except JsError Unit) (q : Except JsError Nat) (params : SendParams) (e : JsError)
    (hb : bucketName.isEmpty = false)
    (hps : prepareSend st bucketName fresh params = .error e) :
    sendMessageModel st bucketName fresh u q params = ([], .error e) := by
  simp [sendMessageModel, hb, hps]

/-- C1 (amended): with the default send transform, for every message with a
truthy body and no pre-existing reserved attribute: if `alwaysUseS3` is off
and the estimated size is at most (not strictly above) the threshold, the
message is sent to the queue completely unchanged with no upload and no
reserved attribute; if `alwaysUseS3` is on or the size is strictly above the
threshold, exactly one upload of the original body occurs, the queue-bound
body is the freshly minted key, and the reserved attribute is
`(bucketName)key`. -/
theorem C1_amended (alwaysUseS3 : Bool) (t : Nat) (bucketName fresh : Str)
    (u : Except JsError Unit) (q : Except JsError Nat) (params : SendParams)
    (hb : bucketName.isEmpty = false)
    (hbody : jsTruthy params.MessageBody = true)
    (hattr : lookupAttr params.MessageAttributes S3_MESSAGE_BODY_KEY = none) :
    (alwaysUseS3 = false → msgSize params ≤ t →
      sendMessageModel (defaultSendTransform alwaysUseS3 t) bucketName fresh u q params
        = ([Event.sqsSend params], q))
    ∧ ((alwaysUseS3 = true ∨ t < msgSize params) →
      sendMessageModel (defaultSendTransform alwaysUseS3 t) bucketName fresh u q params
        = ([Event.sqsSend
              { MessageBody := some fresh,
                MessageAttributes := some (addS3MessageKeyAttribute
                  (('(' :: bucketName) ++ (')' :: fresh))
                  (params.MessageAttributes.getD [])) },
            Event.s3Put bucketName fresh (params.MessageBody.getD [])],
           uploadThen u q)
      ∧ lookupAttr (some (addS3MessageKeyAttribute
            (('(' :: bucketName) ++ (')' :: fresh)) (params.MessageAttributes.getD [])))
          S3_MESSAGE_BODY_KEY
        = some { DataType := some ("String".toList),
                 StringValue := some (('(' :: bucketName) ++ (')' :: fresh)),
                 BinaryValue := none }) := by
  constructor
  · intro hA hsize
    subst hA
    have hT : defaultSendTransform false t params
        = { s3Content := none, messageBody := params.MessageBody } :=
      defaultSendTransform_small t params hsize
    have hps := prepareSend_noOffload (defaultSendTransform false t) bucketName fresh params
      (by rw [hT]; rfl) (by rw [hT]; exact hbody)
    have hred := sendMessageModel_ok_none (defaultSendTransform false t) bucketName fresh
      u q params _ hb hps rfl
    rw [hred, hT]
  · intro hUse
    have hT : defaultSendTransform alwaysUseS3 t params
        = { s3Content := params.MessageBody, messageBody := none } :=
      defaultSendTransform_large alwaysUseS3 t params hUse
    have hps := prepareSend_offload (defaultSendTransform alwaysUseS3 t) bucketName fresh params
      (by rw [hT]; exact hbody) hattr
    have hred := sendMessageModel_ok_some (defaultSendTransform alwaysUseS3 t) bucketName fresh
      u q params _ fresh hb hps rfl
    constructor
    · rw [hred, hT]
      rfl
    · exact lookupAttr_add _ _

/-- Witness for C1: a 2-byte body below a threshold of 100 is sent unchanged;
the same body above a threshold of 1 is offloaded with reserved attribute
`(b)f` and queue body `f`. -/
theorem C1_witness :
    sendMessageModel (defaultSendTransform false 100) (("b".toList)) (("f".toList))
        (.ok ()) (.ok 7) { MessageBody := some ("hi".toList), MessageAttributes := none }
      = ([Event.sqsSend { MessageBody := some ("hi".toList), MessageAttributes := none }],
         .ok 7)
    ∧ sendMessageModel (defaultSendTransform false 1) (("b".toList)) (("f".toList))
        (.ok ()) (.ok 7) { MessageBody := some ("hi".toList), MessageAttributes := none }
      = ([Event.sqsSend
            { MessageBody := some ("f".toList),
              MessageAttributes := some (addS3MessageKeyAttribute
                (('(' :: ("b".toList)) ++ (')' :: ("f".toList))) []) },
          Event.s3Put (("b".toList)) (("f".toList)) (("hi".toList))],
         uploadThen (.ok ()) (.ok 7)) := by
  constructor
  · exact (C1_amended false 100 ("b".toList) ("f".toList) (.ok ()) (.ok 7)
      { MessageBody := some ("hi".toList), MessageAttributes := none }
      (by decide) (by decide) (by decide)).1 rfl (by decide)
  · exact ((C1_amended false 1 ("b".toList) ("f".toList) (.ok ()) (.ok 7)
      { MessageBody := some ("hi".toList), MessageAttributes := none }
      (by decide) (by decide) (by decide)).2 (Or.inr (by decide))).1

/-- Counterexample to C1 as stated: a message whose estimated size is exactly
AT the configured threshold (4 bytes, threshold 4) is sent directly with no
upload and no reserved attribute, because `isLarge` uses a strict `>`
comparison; the claim demands an offload for messages "at or over" the
threshold. -/
theorem C1_counterexample :
    msgSize { MessageBody := some ("abcd".toList), MessageAttributes := none } = 4
    ∧ sendMessageModel (defaultSendTransform false 4) (("b".toList)) (("f".toList))
        (.ok ()) (.ok 0) { MessageBody := some ("abcd".toList), MessageAttributes := none }
      = ([Event.sqsSend { MessageBody := some ("abcd".toList), MessageAttributes := none }],
         .ok 0) := by decide

/-- C2 (code bug evaluated at the failing input): on the offload path the
queue send is initiated (line 151) before the upload is even started, so when
the S3 upload fails, the overall send rejects with the upload's error but the
trace already contains the queue send carrying the reserved attribute
`(test-bucket)1234-5678` — the message reaches the queue bearing a reference
to an object that was never stored. -/
theorem C2_code_bug :
    sendMessageModel (defaultSendTransform false 4) (("test-bucket".toList))
        (("1234-5678".toList))
        (.error (JsError.s3Error ("upload failed".toList))) (.ok 0)
        { MessageBody := some ("abcde".toList), MessageAttributes := none }
      = ([Event.sqsSend
            { MessageBody := some ("1234-5678".toList),
              MessageAttributes := some [(S3_MESSAGE_BODY_KEY,
                { DataType := some ("String".toList),
                  StringValue := some ("(test-bucket)1234-5678".toList),
                  BinaryValue := none })] },
          Event.s3Put (("test-bucket".toList)) (("1234-5678".toList)) (("abcde".toList))],
         .error (JsError.s3Error ("upload failed".toList))) := by decide

/-- The second source version (unnamed/part_001) at the same failing input:
the upload is awaited first, it fails, and no queue send is ever initiated —
the ordering the specification demands. -/
theorem sendMessagePart001_at_failing_input :
    sendMessagePart001 false 4 (("test-bucket".toList)) (("1234-5678".toList))
        (.error (JsError.s3Error ("upload failed".toList))) (.ok 0)
        { MessageBody := some ("abcde".toList), MessageAttributes := none }
      = ([Event.s3Put (("test-bucket".toList)) (("1234-5678".toList)) (("abcde".toList))],
         .error (JsError.s3Error ("upload failed".toList))) := by decide

/-- C5 (amended): when the reserved attribute is already present on the
inbound message, no upload is performed and no new key is minted; but the
outgoing queue body equals the attribute's string value only when the
transform's residual body is falsy (i.e. when the default transform decided
to offload); when the transform leaves a truthy body (small message), the
outgoing body is that body, not the attribute's value. -/
theorem C5_amended (alwaysUseS3 : Bool) (t : Nat) (bucketName fresh : Str)
    (u : Except JsError Unit) (q : Except JsError Nat) (params : SendParams)
    (attr : MessageAttributeValue)
    (hb : bucketName.isEmpty = false)
    (hattr : lookupAttr params.MessageAttributes S3_MESSAGE_BODY_KEY = some attr) :
    prepareSend (defaultSendTransform alwaysUseS3 t) bucketName fresh params
      = .ok { s3MessageKey := none,
              sendParams := { params with MessageBody :=
                (if jsTruthy (defaultSendTransform alwaysUseS3 t params).messageBody
                 then (defaultSendTransform alwaysUseS3 t params).messageBody
                 else attr.StringValue) },
              s3Content := (defaultSendTransform alwaysUseS3 t params).s3Content }
    ∧ sendMessageModel (defaultSendTransform alwaysUseS3 t) bucketName fresh u q params
      = ([Event.sqsSend { params with MessageBody :=
            (if jsTruthy (defaultSendTransform alwaysUseS3 t params).messageBody
             then (defaultSendTransform alwaysUseS3 t params).messageBody
             else attr.StringValue) }], q) := by
  have hps := prepareSend_existing (defaultSendTransform alwaysUseS3 t) bucketName fresh
    params attr hattr
  refine ⟨hps, ?_⟩
  exact sendMessageModel_ok_none (defaultSendTransform alwaysUseS3 t) bucketName fresh
    u q params _ hb hps rfl

/-- Witness for C5: a small message that already carries the reserved
attribute is sent without upload and without a minted key. -/
theorem C5_witness :
    sendMessageModel (defaultSendTransform false 100) (("b".toList)) (("f".toList))
        (.ok ()) (.ok 3)
        { MessageBody := some ("hello".toList),
          MessageAttributes := some [(S3_MESSAGE_BODY_KEY,
            { DataType := some ("String".toList), StringValue := some ("(b)k".toList),
              BinaryValue := none })] }
      = ([Event.sqsSend
            { MessageBody := some ("hello".toList),
              MessageAttributes := some [(S3_MESSAGE_BODY_KEY,
                { DataType := some ("String".toList), StringValue := some ("(b)k".toList),
                  BinaryValue := none })] }], .ok 3) := by
  have h := (C5_amended false 100 ("b".toList) ("f".toList) (.ok ()) (.ok 3)
    { MessageBody := some ("hello".toList),
      MessageAttributes := some [(S3_MESSAGE_BODY_KEY,
        { DataType := some ("String".toList), StringValue := some ("(b)k".toList),
          BinaryValue := none })] }
    { DataType := some ("String".toList), StringValue := some ("(b)k".toList),
      BinaryValue := none }
    (by decide) (by decide)).2
  simpa using h

/-- Counterexample to C5 as stated: a small message (body `"hello"`, under the
threshold) carrying the reserved attribute `(b)k` is sent with outgoing body
`"hello"` — NOT the attribute's string value `(b)k` as the claim requires. -/
theorem C5_counterexample :
    prepareSend (defaultSendTransform false 100) (("b".toList)) (("f".toList))
        { MessageBody := some ("hello".toList),
          MessageAttributes := some [(S3_MESSAGE_BODY_KEY,
            { DataType := some ("String".toList), StringValue := some ("(b)k".toList),
              BinaryValue := none })] }
      = .ok { s3MessageKey := none,
              sendParams :=
                { MessageBody := some ("hello".toList),
                  MessageAttributes := some [(S3_MESSAGE_BODY_KEY,
                    { DataType := some ("String".toList), StringValue := some ("(b)k".toList),
                      BinaryValue := none })] },
              s3Content := none }
    ∧ (some ("hello".toList) : Option Str) ≠ some ("(b)k".toList) := by decide

/-- C9 (confirmed): with the bucket configured, whenever the send transform
declines to offload (falsy `s3Content`), leaves a falsy `messageBody`, and no
reserved attribute is present, `_prepareSend` dereferences `.StringValue` of
`undefined` and `sendMessage` throws a TypeError without initiating any queue
send or upload. -/
theorem C9_confirmed (st : SendParams → SendObj) (bucketName fresh : Str)
    (u : Except JsError Unit) (q : Except JsError Nat) (params : SendParams)
    (hb : bucketName.isEmpty = false)
    (hs3 : jsTruthy (st params).s3Content = false)
    (hmb : jsTruthy (st params).messageBody = false)
    (hattr : lookupAttr params.MessageAttributes S3_MESSAGE_BODY_KEY = none) :
    sendMessageModel st bucketName fresh u q params = ([], .error JsError.typeError) := by
  exact sendMessageModel_error st bucketName fresh u q params JsError.typeError hb
    (prepareSend_typeError st bucketName fresh params hs3 hmb hattr)

/-- Witness for C9: a message with an absent body and no attributes, sent with
the default transform, makes `sendMessage` throw the TypeError. -/
theorem C9_witness :
    sendMessageModel (defaultSendTransform false 262144) (("b".toList)) (("f".toList))
        (.ok ()) (.ok 0) { MessageBody := none, MessageAttributes := none }
      = ([], .error JsError.typeError) := by
  exact C9_confirmed (defaultSendTransform false 262144) ("b".toList) ("f".toList)
    (.ok ()) (.ok 0) { MessageBody := none, MessageAttributes := none }
    (by decide) (by decide) (by decide) (by decide)

/-- C3 (amended): wrap/unwrap of receipt handles inverts exactly, provided the
two markers occur in the wrapped token only at the positions written by
`embedS3MarkersInReceiptHandle` — i.e. none of `b`, `k`, `h` contains a marker
and no stray marker occurrence is created at a concatenation boundary.  (The
original hypothesis, that `b`, `k`, `h` merely avoid the marker literals, is
not sufficient: see the counterexample.) -/
theorem C3_amended (b k h : Str)
    (hBM : occList S3_BUCKET_NAME_MARKER (embedS3MarkersInReceiptHandle b k h)
      = [0, 18 + b.length])
    (hKM : occList S3_MESSAGE_KEY_MARKER (embedS3MarkersInReceiptHandle b k h)
      = [36 + b.length, 47 + b.length + k.length]) :
    extractBucketNameFromReceiptHandle (embedS3MarkersInReceiptHandle b k h) = some b
    ∧ extractS3MessageKeyFromReceiptHandle (embedS3MarkersInReceiptHandle b k h) = some k
    ∧ getOriginReceiptHandle (embedS3MarkersInReceiptHandle b k h) = h :=
  ⟨extractBucket_embed b k h hBM, extractKey_embed b k h hKM, origin_embed b k h hKM⟩

/-- Witness for C3: wrapping bucket `bucket`, key `key12` around handle
`handle` and unwrapping recovers all three. -/
theorem C3_witness :
    extractBucketNameFromReceiptHandle
       (embedS3MarkersInReceiptHandle (("bucket".toList)) (("key12".toList)) (("handle".toList)))
      = some ("bucket".toList)
    ∧ extractS3MessageKeyFromReceiptHandle
       (embedS3MarkersInReceiptHandle (("bucket".toList)) (("key12".toList)) (("handle".toList)))
      = some ("key12".toList)
    ∧ getOriginReceiptHandle
       (embedS3MarkersInReceiptHandle (("bucket".toList)) (("key12".toList)) (("handle".toList)))
      = ("handle".toList) := by
  exact C3_amended ("bucket".toList) ("key12".toList) ("handle".toList)
    (by decide) (by decide)

/-- Counterexample to C3 as stated: the key `"..s3BucketName..-"` contains
neither marker literal, yet wrapping it creates a stray bucket-marker
occurrence spanning the junction between the key marker's trailing `-` and the
key, so bucket extraction does not return the wrapped bucket `"b"`. -/
theorem C3_counterexample :
    occList S3_BUCKET_NAME_MARKER (("..s3BucketName..-".toList)) = []
    ∧ occList S3_MESSAGE_KEY_MARKER (("..s3BucketName..-".toList)) = []
    ∧ occList S3_BUCKET_NAME_MARKER (("b".toList)) = []
    ∧ occList S3_MESSAGE_KEY_MARKER (("b".toList)) = []
    ∧ occList S3_BUCKET_NAME_MARKER (("h".toList)) = []
    ∧ occList S3_MESSAGE_KEY_MARKER (("h".toList)) = []
    ∧ extractBucketNameFromReceiptHandle
        (embedS3MarkersInReceiptHandle (("b".toList)) (("..s3BucketName..-".toList))
          (("h".toList)))
      ≠ some ("b".toList) := by decide

/-- C7 (amended): a receipt handle without the key marker is pass-through: the
extracted key is null, the original handle is the token unchanged, and
`deleteMessage` on it performs only the queue delete with that token (no S3
deletion), regardless of callback or promise invocation; the extracted bucket,
however, is null only when the bucket marker is also absent (when a lone
bucket marker is present the extraction returns a junk substring, which the
delete path never uses because the key is null). -/
theorem C7_amended (h : Str) (callbackGiven promiseInvoked : Bool)
    (hKM : occList S3_MESSAGE_KEY_MARKER h = []) :
    extractS3MessageKeyFromReceiptHandle h = none
    ∧ getOriginReceiptHandle h = h
    ∧ deleteMessageEffects { ReceiptHandle := h } callbackGiven promiseInvoked
        = [Event.sqsDelete h]
    ∧ (occList S3_BUCKET_NAME_MARKER h = [] →
        extractBucketNameFromReceiptHandle h = none) := by
  have hkey : extractS3MessageKeyFromReceiptHandle h = none := by
    unfold extractS3MessageKeyFromReceiptHandle jsIndexOf jsLastIndexOf
    rw [hKM]
    rfl
  have horig : getOriginReceiptHandle h = h := by
    unfold getOriginReceiptHandle jsLastIndexOf
    rw [hKM]
    rfl
  refine ⟨hkey, horig, ?_, ?_⟩
  · unfold deleteMessageEffects prepareDelete
    rw [hkey, horig]
    rfl
  · intro hBM
    unfold extractBucketNameFromReceiptHandle jsIndexOf jsLastIndexOf
    rw [hBM]
    rfl

/-- Witness for C7: a plain receipt handle passes through `deleteMessage`
untouched with no S3 deletion. -/
theorem C7_witness :
    extractS3MessageKeyFromReceiptHandle (("plainhandle".toList)) = none
    ∧ getOriginReceiptHandle (("plainhandle".toList)) = ("plainhandle".toList)
    ∧ deleteMessageEffects { ReceiptHandle := ("plainhandle".toList) } false true
        = [Event.sqsDelete (("plainhandle".toList))]
    ∧ (occList S3_BUCKET_NAME_MARKER (("plainhandle".toList)) = [] →
        extractBucketNameFromReceiptHandle (("plainhandle".toList)) = none) := by
  exact C7_amended ("plainhandle".toList) false true (by decide)

/-- Counterexample to C7 as stated: a token containing the bucket marker but
no key marker.  The key is null and the handle passes through, but the bucket
extraction returns `some "x"` — not null — contradicting "both bucket and key
are null regardless of whether the bucket marker appears". -/
theorem C7_counterexample :
    extractS3MessageKeyFromReceiptHandle
        (S3_BUCKET_NAME_MARKER ++ ('x' :: S3_BUCKET_NAME_MARKER)) = none
    ∧ extractBucketNameFromReceiptHandle
        (S3_BUCKET_NAME_MARKER ++ ('x' :: S3_BUCKET_NAME_MARKER)) = some (['x']) := by decide

/-- C4 (code bug evaluated at the failing input): deleting a properly wrapped
receipt handle with no callback and without invoking the returned
`promise()`/`send` issues the queue delete with the original unwrapped handle
(as the claim requires) but never issues the S3 delete for the embedded
bucket/key, because `deleteMessage` (unlike `sendMessage`) returns the
`wrapRequest` wrapper without calling `.promise()`. -/
theorem C4_code_bug :
    deleteMessageEffects
        { ReceiptHandle := embedS3MarkersInReceiptHandle (("test-bucket".toList))
            (("8765-4321".toList)) (("receipthandle".toList)) } false false
      = [Event.sqsDelete (("receipthandle".toList))] := by decide

/-- C10 (confirmed): calling `deleteMessage` without a callback on a wrapped
receipt handle initiates the queue delete unconditionally (with the original
handle), and performs the S3 `deleteObject` for the embedded bucket/key
exactly when the caller invokes the returned `promise()`/`send` function — a
caller that merely awaits the returned wrapper never deletes the stored
object. -/
theorem C10_confirmed (b k h : Str) (promiseInvoked : Bool)
    (hBM : occList S3_BUCKET_NAME_MARKER (embedS3MarkersInReceiptHandle b k h)
      = [0, 18 + b.length])
    (hKM : occList S3_MESSAGE_KEY_MARKER (embedS3MarkersInReceiptHandle b k h)
      = [36 + b.length, 47 + b.length + k.length])
    (hk : k ≠ []) (hb : b ≠ []) :
    deleteMessageEffects { ReceiptHandle := embedS3MarkersInReceiptHandle b k h }
        false promiseInvoked
      = [Event.sqsDelete h] ++ (if promiseInvoked then [Event.s3Delete b k] else []) := by
  unfold deleteMessageEffects prepareDelete
  rw [extractKey_embed b k h hKM, extractBucket_embed b k h hBM, origin_embed b k h hKM]
  have hkt : jsTruthy (some k) = true := by
    simp [jsTruthy, List.isEmpty_iff, hk]
  have hbt : jsTruthy (some b) = true := by
    simp [jsTruthy, List.isEmpty_iff, hb]
  cases promiseInvoked <;> simp [hkt, hbt, deleteS3ContentEffects]

/-- Witness for C10: with a wrapped handle, awaiting only (promise not
invoked) performs no S3 delete, while invoking `promise()` performs it. -/
theorem C10_witness :
    deleteMessageEffects
        { ReceiptHandle := embedS3MarkersInReceiptHandle (("tb".toList)) (("kk".toList))
            (("rh".toList)) } false false
      = [Event.sqsDelete (("rh".toList))]
    ∧ deleteMessageEffects
        { ReceiptHandle := embedS3MarkersInReceiptHandle (("tb".toList)) (("kk".toList))
            (("rh".toList)) } false true
      = [Event.sqsDelete (("rh".toList)), Event.s3Delete (("tb".toList)) (("kk".toList))] := by
  constructor
  · have h := C10_confirmed ("tb".toList) ("kk".toList) ("rh".toList) false
      (by decide) (by decide) (by decide) (by decide)
    simpa using h
  · have h := C10_confirmed ("tb".toList) ("kk".toList) ("rh".toList) true
      (by decide) (by decide) (by decide) (by decide)
    simpa using h

/-- C6 (amended): decoding the reserved-attribute token returns the
not-offloaded sentinel for an absent token AND for a present-but-empty token
(both are falsy in the source's guard), raising no error; every nonempty token
that does not match the leading `(bucket)key` parenthesized pattern raises the
fatal parse error, never silently ignored. -/
theorem C6_amended :
    getS3MessageKeyAndBucket none = .ok (none, none)
    ∧ getS3MessageKeyAndBucket (some []) = .ok (none, none)
    ∧ (∀ s : Str, s ≠ [] → matchesKeyPattern s = false →
        getS3MessageKeyAndBucket (some s) = .error JsError.parseError) := by
  refine ⟨rfl, rfl, ?_⟩
  intro s hne hmat
  rcases s with _ | ⟨c, rest⟩
  · exact absurd rfl hne
  · by_cases hc : c = '('
    · subst hc
      have hocc : occList ([')']) rest = [] := by
        unfold matchesKeyPattern at hmat
        simpa [List.isEmpty_iff] using hmat
      unfold getS3MessageKeyAndBucket
      simp [hocc]
    · unfold getS3MessageKeyAndBucket
      simp only [List.isEmpty_cons, Bool.false_eq_true, if_false]
      split
      · rename_i heq
        exact absurd (List.cons.injEq .. ▸ heq) (by simp [hc])
      · rfl

/-- Witness for C6: the non-matching token `xyz` raises the parse error. -/
theorem C6_witness :
    getS3MessageKeyAndBucket (some ("xyz".toList)) = .error JsError.parseError := by
  exact C6_amended.2.2 ("xyz".toList) (by decide) (by decide)

/-- Counterexample to C6 as stated: the empty string is a present token that
does not match the `(bucket)key` pattern, yet decoding returns the
not-offloaded sentinel instead of raising the fatal parse error, because the
source's guard `if (!s3MessageKey)` treats the empty string as absent. -/
theorem C6_counterexample :
    getS3MessageKeyAndBucket (some []) = .ok (none, none)
    ∧ matchesKeyPattern [] = false := by decide

/-- Concrete fetch oracle for the C8 scenario: the object under key `k1` is
unavailable, every other fetch succeeds with `content`. -/
def fetchCEx : Str → Str → Except JsError Str :=
  fun _ k =>
    if k = ("k1".toList) then .error (JsError.s3Error ("fetch failed".toList))
    else .ok ("content".toList)

/-- First message of the C8 batch: offloaded under bucket `bkt`, key `k1`. -/
def mCEx1 : Message :=
  { Body := some ("b1".toList), ReceiptHandle := some ("rh1".toList),
    MessageAttributes := some [(S3_MESSAGE_BODY_KEY,
      { DataType := some ("String".toList), StringValue := some ("(bkt)k1".toList),
        BinaryValue := none })] }

/-- Second message of the C8 batch: offloaded under bucket `bkt`, key `k2`. -/
def mCEx2 : Message :=
  { Body := some ("b2".toList), ReceiptHandle := some ("rh2".toList),
    MessageAttributes := some [(S3_MESSAGE_BODY_KEY,
      { DataType := some ("String".toList), StringValue := some ("(bkt)k2".toList),
        BinaryValue := none })] }

/-- C8 (amended): in batch receive processing (`receiveMessage`'s
`_processReceive` and `checkEvent`), one message's object-store fetch failure
makes the entire batch call reject with a fetch error — the failure is
surfaced to the caller, never silently dropped or replaced by a raw-body
fallback — but it is surfaced as the whole call's outcome, so sibling
messages' processed results are not delivered; a batch whose every message
processes successfully resolves with all processed messages. -/
theorem C8_amended :
    (∀ (rt : Message → Option Str → Option Str) (fetch : Str → Str → Except JsError Str)
      (msgs : List Message) (m : Message) (e : JsError),
      m ∈ msgs → processMessage rt fetch m = .error e →
      ∃ e2, processReceive rt fetch msgs = .error e2)
    ∧ (∀ (fetch : Str → Str → Except JsError Str) (records : List SQSRecord)
        (r : SQSRecord) (e : JsError),
        r ∈ records → checkEventRecord fetch r = .error e →
        ∃ e2, checkEvent fetch records = .error e2)
    ∧ (∀ (rt : Message → Option Str → Option Str) (fetch : Str → Str → Except JsError Str)
        (msgs : List Message),
        (∀ m ∈ msgs, ∃ m2, processMessage rt fetch m = .ok m2) →
        ∃ l, processReceive rt fetch msgs = .ok l) := by
  refine ⟨?_, ?_, ?_⟩
  · intro rt fetch msgs
    induction msgs with
    | nil => intro m e hm; exact absurd hm (List.not_mem_nil m)
    | cons a rest ih =>
      intro m e hm herr
      rcases List.mem_cons.mp hm with hma | hmr
      · subst hma
        exact ⟨e, by simp [processReceive, herr]⟩
      · rcases h1 : processMessage rt fetch a with e1 | m1
        · exact ⟨e1, by simp [processReceive, h1]⟩
        · rcases ih m e hmr herr with ⟨e2, h2⟩
          exact ⟨e2, by simp [processReceive, h1, h2]⟩
  · intro fetch records
    induction records with
    | nil => intro r e hr; exact absurd hr (List.not_mem_nil r)
    | cons a rest ih =>
      intro r e hr herr
      rcases List.mem_cons.mp hr with hra | hrr
      · subst hra
        exact ⟨e, by simp [checkEvent, herr]⟩
      · rcases h1 : checkEventRecord fetch a with e1 | r1
        · exact ⟨e1, by simp [checkEvent, h1]⟩
        · rcases ih r e hrr herr with ⟨e2, h2⟩
          exact ⟨e2, by simp [checkEvent, h1, h2]⟩
  · intro rt fetch msgs hall
    induction msgs with
    | nil => exact ⟨[], rfl⟩
    | cons a rest ih =>
      rcases hall a (List.mem_cons_self a rest) with ⟨m1, h1⟩
      rcases ih (fun m hm => hall m (List.mem_cons_of_mem a hm)) with ⟨l, hl⟩
      exact ⟨m1 :: l, by simp [processReceive, h1, hl]⟩

/-- Witness for C8: in the concrete two-message batch where the first fetch
fails, the whole `receiveMessage` call rejects. -/
theorem C8_witness :
    ∃ e2, processReceive defaultReceiveTransform fetchCEx [mCEx1, mCEx2] = .error e2 := by
  exact C8_amended.1 defaultReceiveTransform fetchCEx [mCEx1, mCEx2] mCEx1
    (JsError.s3Error ("fetch failed".toList)) (by decide) (by decide)

/-- Counterexample to C8 as stated: in the two-message batch, the second
message alone would process successfully (its fetch succeeds and its body and
receipt handle are rewritten), yet the batch call rejects with the first
message's fetch error and delivers nothing — the sibling's outcome is not
surfaced per-message as the claim requires. -/
theorem C8_counterexample :
    processReceive defaultReceiveTransform fetchCEx [mCEx1, mCEx2]
      = .error (JsError.s3Error ("fetch failed".toList))
    ∧ processMessage defaultReceiveTransform fetchCEx mCEx2
      = .ok { Body := some ("content".toList),
              ReceiptHandle := some (embedS3MarkersInReceiptHandle ("bkt".toList)
                ("k2".toList) ("rh2".toList)),
              MessageAttributes := mCEx2.MessageAttributes } := by decide
